import Mathlib

/-!
Shallow embedding of `vix.py`: a stateful VIX regime-classification and
alerting engine.  Python floats are modelled as rationals (ℚ), Python ints
as ℤ, and `collections.deque` with `maxlen` as a list kept to its last
`maxlen` elements.  The per-tick loop body (with the network and
notification I/O stripped, none of which touches the in-process state) is
modelled as the state-transition function `tick`.
-/

/-- Configuration constant `SMOOTHING_DAYS = 3` (vix.py line 16). -/
def SMOOTHING_DAYS : ℕ := 3

/-- Configuration constant `TREND_LENGTH = 5` (vix.py line 17). -/
def TREND_LENGTH : ℕ := 5

/-- Configuration constant `WEEKLY_LENGTH = 7` (vix.py line 18). -/
def WEEKLY_LENGTH : ℕ := 7

/-- Configuration constant `EARLY_WARNING_THRESHOLD = -0.25` (vix.py line 15). -/
def EARLY_WARNING_THRESHOLD : ℚ := -(1/4)

/-- A market snapshot as returned by `fetch_market_data` (vix.py lines 39-47):
the six price fields.  The derivation `vx3 = vx2 * 1.01` is performed by the
source collaborator and is not an invariant of this record. -/
structure MarketSnapshot where
  vix : ℚ
  vvix : ℚ
  spx : ℚ
  vx1 : ℚ
  vx2 : ℚ
  vx3 : ℚ
  deriving DecidableEq

/-- The `changes` dict produced by `compute_changes` (vix.py lines 97-111). -/
structure Changes where
  vix_change : ℚ
  vvix_change : ℚ
  spx_change : ℚ
  spread : ℚ
  spread_trending_down : Bool
  deriving DecidableEq

/-- The five regime labels returned by `classify` (vix.py lines 127-132). -/
inductive Regime where
  | PANIC
  | TRANSITION
  | EARLY_PHASE_1
  | CONFIRMED_PHASE_1
  | LATE_PHASE_1
  deriving DecidableEq, BEq

/-- The `previous` dict (vix.py line 53) in its populated form.  The five
fields start as `None` and are always assigned together at the end of a
successful tick (vix.py lines 323-327), so the cross-tick state is modelled
as `Option PrevVals`: `none` before the first completed tick, `some` after. -/
structure PrevVals where
  vix : ℚ
  vvix : ℚ
  spx : ℚ
  spread : ℚ
  regime : Regime
  deriving DecidableEq

/-- Error raised inside `compute_changes` when a division by a zero previous
value occurs (Python `ZeroDivisionError`, caught at the top of the loop). -/
inductive ComputeError where
  | divByZero
  deriving DecidableEq

/-- Python `deque(iterable, maxlen=n)`: keep only the last `maxlen` elements
of the stored list (used by `load_history`, vix.py line 82). -/
def dequeFrom (maxlen : ℕ) (l : List α) : List α :=
  l.drop (l.length - maxlen)

/-- Python `deque.append` on a deque with `maxlen`: append on the right,
discarding from the left whatever exceeds the capacity. -/
def dappend (maxlen : ℕ) (l : List α) (x : α) : List α :=
  dequeFrom maxlen (l ++ [x])

/-- The `history` dict of rolling buffers (vix.py lines 55-71): four
smoothing buffers of capacity `SMOOTHING_DAYS`, four trend buffers of
capacity `TREND_LENGTH`, six weekly fields of capacity `WEEKLY_LENGTH`.
Capacities live in the operations (`dappend`/`dequeFrom`), as in the source
where they live in each deque's `maxlen`. -/
structure History where
  vix_strength : List ℤ
  vvix_strength : List ℤ
  spread_strength : List ℤ
  spx_strength : List ℤ
  vix_trend : List ℤ
  vvix_trend : List ℤ
  spread_trend : List ℤ
  spx_trend : List ℤ
  vix_week : List ℤ
  vvix_week : List ℤ
  spread_week : List ℤ
  spx_week : List ℤ
  regime_week : List Regime
  date_week : List String
  deriving DecidableEq

/-- The initial `history`: all fourteen deques empty (vix.py lines 55-71). -/
def History.init : History :=
  ⟨[], [], [], [], [], [], [], [], [], [], [], [], [], []⟩

/-- The persisted JSON representation written by `save_history` (vix.py
lines 87-91): one stored list per buffer name, of arbitrary length. -/
structure StoredHistory where
  vix_strength : List ℤ
  vvix_strength : List ℤ
  spread_strength : List ℤ
  spx_strength : List ℤ
  vix_trend : List ℤ
  vvix_trend : List ℤ
  spread_trend : List ℤ
  spx_trend : List ℤ
  vix_week : List ℤ
  vvix_week : List ℤ
  spread_week : List ℤ
  spx_week : List ℤ
  regime_week : List Regime
  date_week : List String
  deriving DecidableEq

/-- `load_history` (vix.py lines 77-85): each stored list is rebuilt as
`deque(data[k], maxlen=history[k].maxlen)`, which keeps only the last
`maxlen` elements of the stored list. -/
def load_history (stored : StoredHistory) : History where
  vix_strength := dequeFrom SMOOTHING_DAYS stored.vix_strength
  vvix_strength := dequeFrom SMOOTHING_DAYS stored.vvix_strength
  spread_strength := dequeFrom SMOOTHING_DAYS stored.spread_strength
  spx_strength := dequeFrom SMOOTHING_DAYS stored.spx_strength
  vix_trend := dequeFrom TREND_LENGTH stored.vix_trend
  vvix_trend := dequeFrom TREND_LENGTH stored.vvix_trend
  spread_trend := dequeFrom TREND_LENGTH stored.spread_trend
  spx_trend := dequeFrom TREND_LENGTH stored.spx_trend
  vix_week := dequeFrom WEEKLY_LENGTH stored.vix_week
  vvix_week := dequeFrom WEEKLY_LENGTH stored.vvix_week
  spread_week := dequeFrom WEEKLY_LENGTH stored.spread_week
  spx_week := dequeFrom WEEKLY_LENGTH stored.spx_week
  regime_week := dequeFrom WEEKLY_LENGTH stored.regime_week
  date_week := dequeFrom WEEKLY_LENGTH stored.date_week

/-- The capacity invariant: every rolling buffer holds at most its declared
capacity (spec §3). -/
def History.wf (h : History) : Prop :=
  h.vix_strength.length ≤ SMOOTHING_DAYS ∧
  h.vvix_strength.length ≤ SMOOTHING_DAYS ∧
  h.spread_strength.length ≤ SMOOTHING_DAYS ∧
  h.spx_strength.length ≤ SMOOTHING_DAYS ∧
  h.vix_trend.length ≤ TREND_LENGTH ∧
  h.vvix_trend.length ≤ TREND_LENGTH ∧
  h.spread_trend.length ≤ TREND_LENGTH ∧
  h.spx_trend.length ≤ TREND_LENGTH ∧
  h.vix_week.length ≤ WEEKLY_LENGTH ∧
  h.vvix_week.length ≤ WEEKLY_LENGTH ∧
  h.spread_week.length ≤ WEEKLY_LENGTH ∧
  h.spx_week.length ≤ WEEKLY_LENGTH ∧
  h.regime_week.length ≤ WEEKLY_LENGTH ∧
  h.date_week.length ≤ WEEKLY_LENGTH

/-- `compute_changes` (vix.py lines 97-111).  The Python guard
`if previous["vix"]:` is a truthiness test: it takes the percent-change
branch only when the previous vix is present AND nonzero.  Inside that
branch, a zero previous `vvix` or `spx` raises `ZeroDivisionError`;
a zero (or absent) previous `vix` instead falls to the all-zero branch.
`spread_trending_down` is `previous["spread"] is not None and
spread < previous["spread"]`; the previous spread is present exactly when
the previous state is. -/
def compute_changes (data : MarketSnapshot) (prev : Option PrevVals) :
    Except ComputeError Changes :=
  match prev with
  | some p =>
    if p.vix ≠ 0 then
      if p.vvix = 0 ∨ p.spx = 0 then
        Except.error ComputeError.divByZero
      else
        Except.ok
          { vix_change := (data.vix - p.vix) / p.vix * 100
            vvix_change := (data.vvix - p.vvix) / p.vvix * 100
            spx_change := (data.spx - p.spx) / p.spx * 100
            spread := data.vx1 - data.vx2
            spread_trending_down := decide (data.vx1 - data.vx2 < p.spread) }
    else
      Except.ok
        { vix_change := 0
          vvix_change := 0
          spx_change := 0
          spread := data.vx1 - data.vx2
          spread_trending_down := decide (data.vx1 - data.vx2 < p.spread) }
  | none =>
    Except.ok
      { vix_change := 0
        vvix_change := 0
        spx_change := 0
        spread := data.vx1 - data.vx2
        spread_trending_down := false }

/-- `fake_spike` (vix.py lines 113-114). -/
def fake_spike (data : MarketSnapshot) (changes : Changes) : Bool :=
  decide (changes.vix_change > 0) && decide (changes.vvix_change > 0) &&
    decide (data.vx1 > data.vx2) && decide (data.vx2 > data.vx3)

/-- `probability_score` (vix.py lines 116-125): sequential accumulation of
fixed weights over seven independently evaluated conditions. -/
def probability_score (data : MarketSnapshot) (changes : Changes) : ℤ :=
  let s0 : ℤ := 0
  let s1 := if |changes.vix_change| > 3 then s0 + 20 else s0
  let s2 := if data.vx1 < data.vx2 then s1 + 20 else s1
  let s3 := if changes.spread < -(1/2) then s2 + 15 else s2
  let s4 := if changes.spread_trending_down then s3 + 10 else s3
  let s5 := if changes.vvix_change < 0 then s4 + 15 else s4
  let s6 := if changes.spx_change > 0 ∧ changes.vix_change < 0 then s5 + 10 else s5
  let s7 := if data.vx1 < data.vx2 ∧ data.vx2 < data.vx3 then s6 + 10 else s6
  s7

/-- `classify` (vix.py lines 127-132). -/
def classify (score : ℤ) : Regime :=
  if score < 30 then Regime.PANIC
  else if score < 50 then Regime.TRANSITION
  else if score < 70 then Regime.EARLY_PHASE_1
  else if score < 85 then Regime.CONFIRMED_PHASE_1
  else Regime.LATE_PHASE_1

/-- The `important` list of `should_alert` (vix.py line 135). -/
def important : List Regime :=
  [Regime.TRANSITION, Regime.EARLY_PHASE_1, Regime.CONFIRMED_PHASE_1]

/-- `should_alert` (vix.py lines 134-136).  `old` is `previous["regime"]`,
which is `None` before the first completed tick; the Python comparison
`new != old` is true whenever `old` is `None`. -/
def should_alert (new : Regime) (old : Option Regime) : Bool :=
  decide (some new ≠ old) && important.contains new

/-- `should_early_warning_alert` (vix.py lines 138-139). -/
def should_early_warning_alert (changes : Changes) : Bool :=
  decide (EARLY_WARNING_THRESHOLD ≥ changes.spread) && decide (changes.spread > -(1/2))

/-- Python `int(...)` applied to a float: truncation toward zero. -/
def pytrunc (q : ℚ) : ℤ :=
  if q < 0 then ⌈q⌉ else ⌊q⌋

/-- `signal_strength` (vix.py lines 177-181): `max(min(int(value*5+50),100),0)`,
with the input negated first when `ideal_positive` is false. -/
def signal_strength (value : ℚ) (ideal_positive : Bool) : ℤ :=
  if ideal_positive then
    max (min (pytrunc (value * 5 + 50)) 100) 0
  else
    max (min (pytrunc ((0 - value) * 5 + 50)) 100) 0

/-- The four instantaneous strengths exactly as computed at the call sites in
`run` (vix.py lines 260-263): vix and vvix negate the percent change, spread
negates the spread, spx passes the raw change; all with `ideal_positive`
true (the Python default). -/
def strengths (changes : Changes) : ℤ × ℤ × ℤ × ℤ :=
  (signal_strength (-changes.vix_change) true,
   signal_strength (-changes.vvix_change) true,
   signal_strength (-changes.spread) true,
   signal_strength changes.spx_change true)

/-- The buffer updates performed inside the phase-alert branch of `run`
(vix.py lines 266-287): each strength is appended to its smoothing buffer
(by `smoothed_strength`, vix.py line 189), to its trend buffer, and to the
weekly fields together with the regime and the date. -/
def update_buffers (h : History) (vix_str vvix_str spread_str spx_str : ℤ)
    (regime : Regime) (today : String) : History where
  vix_strength := dappend SMOOTHING_DAYS h.vix_strength vix_str
  vvix_strength := dappend SMOOTHING_DAYS h.vvix_strength vvix_str
  spread_strength := dappend SMOOTHING_DAYS h.spread_strength spread_str
  spx_strength := dappend SMOOTHING_DAYS h.spx_strength spx_str
  vix_trend := dappend TREND_LENGTH h.vix_trend vix_str
  vvix_trend := dappend TREND_LENGTH h.vvix_trend vvix_str
  spread_trend := dappend TREND_LENGTH h.spread_trend spread_str
  spx_trend := dappend TREND_LENGTH h.spx_trend spx_str
  vix_week := dappend WEEKLY_LENGTH h.vix_week vix_str
  vvix_week := dappend WEEKLY_LENGTH h.vvix_week vvix_str
  spread_week := dappend WEEKLY_LENGTH h.spread_week spread_str
  spx_week := dappend WEEKLY_LENGTH h.spx_week spx_str
  regime_week := dappend WEEKLY_LENGTH h.regime_week regime
  date_week := dappend WEEKLY_LENGTH h.date_week today

/-- The in-process state threaded through the main loop: the `previous` dict
and the `history` dict of rolling buffers. -/
structure LoopState where
  previous : Option PrevVals
  history : History
  deriving DecidableEq

/-- One iteration of the loop body of `run` (vix.py lines 240-332), with the
I/O (fetching, Telegram sends, JSON save, the wall-clock-gated weekly
dashboard) stripped: none of those mutate `previous` or `history`.
A `ZeroDivisionError` from `compute_changes` is modelled as `Except.error`;
the enclosing `except` leaves the state unchanged.  When `fake_spike` holds
the loop `continue`s, leaving the state unchanged.  Otherwise the score is
computed and classified, buffers are updated only inside the
`should_alert` branch, and `previous` is overwritten at the end. -/
def tick (st : LoopState) (data : MarketSnapshot) (today : String) :
    Except ComputeError LoopState :=
  match compute_changes data st.previous with
  | Except.error e => Except.error e
  | Except.ok changes =>
    if fake_spike data changes then
      Except.ok st
    else
      let score := probability_score data changes
      let regime := classify score
      let history1 :=
        if should_alert regime (Option.map PrevVals.regime st.previous) then
          let s := strengths changes
          update_buffers st.history s.1 s.2.1 s.2.2.1 s.2.2.2 regime today
        else
          st.history
      Except.ok
        { previous := some
            { vix := data.vix
              vvix := data.vvix
              spx := data.spx
              spread := changes.spread
              regime := regime }
          history := history1 }

/-- Round half up to the nearest integer.  This is the spec-side rounding
operation named by claim C6 ("the fractional part is rounded to the nearest
integer"); it is NOT what the source computes. -/
def roundNearest (q : ℚ) : ℤ := ⌊q + 1/2⌋

/-- Spec-side strength formula following the words of claim C6:
clamp(round(sign_adjusted_value * 5 + 50), 0, 100) with round-to-nearest.
Declared for comparison against `signal_strength`. -/
def signal_strength_round_spec (v : ℚ) : ℤ :=
  max (min (roundNearest (v * 5 + 50)) 100) 0

/-- Amended-spec strength formula: clamp(trunc(sign_adjusted_value * 5 + 50),
0, 100) with truncation toward zero, which is what Python `int()` does. -/
def signal_strength_trunc_spec (v : ℚ) : ℤ :=
  max (min (pytrunc (v * 5 + 50)) 100) 0

/-- A fixed date string for witness states (the tick's `today` input). -/
def day0 : String := "01-01"

/-- Concrete changes whose vix percent change has a fractional part, used to
separate truncation from rounding. -/
def changes6 : Changes :=
  { vix_change := -(3/4), vvix_change := 0, spx_change := 0, spread := 0,
    spread_trending_down := false }

/-- Concrete previous state for the fake-spike short-circuit witness. -/
def prev7 : PrevVals := { vix := 1, vvix := 1, spx := 1, spread := 0, regime := Regime.PANIC }

/-- Concrete loop state for the fake-spike short-circuit witness. -/
def st7_in : LoopState := { previous := some prev7, history := History.init }

/-- Concrete snapshot triggering `fake_spike` against `prev7`:
both changes are +100 percent and vx1 > vx2 > vx3. -/
def data7 : MarketSnapshot := { vix := 2, vvix := 2, spx := 1, vx1 := 3, vx2 := 2, vx3 := 1 }

/-- The changes `compute_changes` produces from `data7` and `prev7`. -/
def changes7 : Changes :=
  { vix_change := 100, vvix_change := 100, spx_change := 0, spread := 1,
    spread_trending_down := false }

/-- Concrete snapshot obeying the source derivation vx3 = vx2 * 1.01. -/
def data10 : MarketSnapshot :=
  { vix := 15, vvix := 90, spx := 4000, vx1 := 2, vx2 := 1, vx3 := 101/100 }

/-- Concrete changes with both percent changes positive, so that only the
vx2 > vx3 conjunct can block the fake-spike condition. -/
def changes10 : Changes :=
  { vix_change := 5, vvix_change := 5, spx_change := 0, spread := 1,
    spread_trending_down := false }

/-- Concrete snapshot for the zero-previous-value cases. -/
def data9 : MarketSnapshot := { vix := 20, vvix := 20, spx := 20, vx1 := 3, vx2 := 2, vx3 := 1 }

/-- Previous state whose stored vix is exactly zero. -/
def prev9 : PrevVals := { vix := 0, vvix := 5, spx := 5, spread := 0, regime := Regime.PANIC }

/-- Previous state whose stored vvix is exactly zero (vix nonzero). -/
def prev9b : PrevVals := { vix := 5, vvix := 0, spx := 5, spread := 0, regime := Regime.PANIC }

/-- Previous state for a scored tick that fires no phase alert. -/
def prev5 : PrevVals := { vix := 10, vvix := 10, spx := 10, spread := 0, regime := Regime.PANIC }

/-- Loop state before the no-alert scored tick. -/
def st5_in : LoopState := { previous := some prev5, history := History.init }

/-- Snapshot producing zero changes against `prev5`, score 0, regime PANIC:
the tick is scored but `should_alert` is false (PANIC is not important). -/
def data5 : MarketSnapshot := { vix := 10, vvix := 10, spx := 10, vx1 := 5, vx2 := 4, vx3 := 4 }

/-- The changes `compute_changes` produces from `data5` and `prev5`. -/
def changes5 : Changes :=
  { vix_change := 0, vvix_change := 0, spx_change := 0, spread := 1,
    spread_trending_down := false }

/-- The state after the no-alert scored tick: `previous` is overwritten,
every buffer is untouched (still empty). -/
def st5_out : LoopState :=
  { previous := some { vix := 10, vvix := 10, spx := 10, spread := 1, regime := Regime.PANIC },
    history := History.init }

/-- Previous state for an alert-firing scored tick. -/
def prev5b : PrevVals := { vix := 10, vvix := 10, spx := 10, spread := 0, regime := Regime.PANIC }

/-- Loop state before the alert-firing tick. -/
def st5b_in : LoopState := { previous := some prev5b, history := History.init }

/-- Snapshot producing vix change -4 percent and vvix change -10 percent
against `prev5b`: score 35, regime TRANSITION, so the phase alert fires. -/
def data5b : MarketSnapshot :=
  { vix := 48/5, vvix := 9, spx := 10, vx1 := 4, vx2 := 3, vx3 := 3 }

/-- The changes `compute_changes` produces from `data5b` and `prev5b`. -/
def changes5b : Changes :=
  { vix_change := -4, vvix_change := -10, spx_change := 0, spread := 1,
    spread_trending_down := false }

/-- The buffers after the alert-firing tick: every buffer received exactly
one strength value (70, 100, 45, 50 for vix, vvix, spread, spx). -/
def hist5b : History :=
  { vix_strength := [70], vvix_strength := [100], spread_strength := [45], spx_strength := [50],
    vix_trend := [70], vvix_trend := [100], spread_trend := [45], spx_trend := [50],
    vix_week := [70], vvix_week := [100], spread_week := [45], spx_week := [50],
    regime_week := [Regime.TRANSITION], date_week := [day0] }

/-- The full state after the alert-firing tick. -/
def st5b_out : LoopState :=
  { previous := some ⟨48/5, 9, 10, 1, Regime.TRANSITION⟩, history := hist5b }

/-- A `dequeFrom` result never exceeds the capacity. -/
theorem dequeFrom_length_le (n : ℕ) (l : List α) : (dequeFrom n l).length ≤ n := by
  simp only [dequeFrom, List.length_drop]
  omega

/-- A `dappend` result never exceeds the capacity. -/
theorem dappend_length_le (n : ℕ) (l : List α) (x : α) : (dappend n l x).length ≤ n :=
  dequeFrom_length_le n (l ++ [x])

/-- A fold of `dappend` preserves the capacity bound. -/
theorem foldl_dappend_length_le (n : ℕ) (xs : List α) :
    ∀ acc : List α, acc.length ≤ n → (xs.foldl (dappend n) acc).length ≤ n := by
  induction xs with
  | nil => intro acc h; exact h
  | cons x xs ih =>
    intro acc _
    exact ih (dappend n acc x) (dappend_length_le n acc x)

/-- Loading persisted buffers re-establishes the capacity invariant, whatever
the stored lists are: the deque constructor keeps only the last `maxlen`
elements. -/
theorem load_history_wf (stored : StoredHistory) : (load_history stored).wf := by
  refine ⟨?_, ?_, ?_, ?_, ?_, ?_, ?_, ?_, ?_, ?_, ?_, ?_, ?_, ?_⟩ <;>
    exact dequeFrom_length_le _ _

/-- The alert-branch buffer update preserves the capacity invariant. -/
theorem update_buffers_wf (h : History) (a b c d : ℤ) (r : Regime) (t : String)
    (_ : h.wf) : (update_buffers h a b c d r t).wf := by
  refine ⟨?_, ?_, ?_, ?_, ?_, ?_, ?_, ?_, ?_, ?_, ?_, ?_, ?_, ?_⟩ <;>
    exact dappend_length_le _ _ _

/-- Appending to a full deque evicts exactly the oldest element. -/
theorem dappend_full_evicts_oldest (n : ℕ) (l : List α) (x : α)
    (hn : 0 < n) (hl : l.length = n) : dappend n l x = l.tail ++ [x] := by
  cases l with
  | nil => simp at hl; omega
  | cons a t =>
    unfold dappend dequeFrom
    have h1 : ((a :: t) ++ [x]).length - n = 1 := by
      simp at hl ⊢
      omega
    rw [h1]
    simp

set_option maxHeartbeats 2000000 in
/-- C1: `probability_score` returns exactly the sum of the weights of the
conditions from the scoring table that hold (20, 20, 15, 10, 15, 10, 10),
each condition evaluated independently with no partial credit, and the
result always lies in [0, 100]. -/
theorem probability_score_sum_of_weights (data : MarketSnapshot) (changes : Changes) :
    probability_score data changes =
      (if |changes.vix_change| > 3 then (20 : ℤ) else 0) +
      (if data.vx1 < data.vx2 then (20 : ℤ) else 0) +
      (if changes.spread < -(1/2) then (15 : ℤ) else 0) +
      (if changes.spread_trending_down then (10 : ℤ) else 0) +
      (if changes.vvix_change < 0 then (15 : ℤ) else 0) +
      (if changes.spx_change > 0 ∧ changes.vix_change < 0 then (10 : ℤ) else 0) +
      (if data.vx1 < data.vx2 ∧ data.vx2 < data.vx3 then (10 : ℤ) else 0) ∧
    0 ≤ probability_score data changes ∧ probability_score data changes ≤ 100 := by
  simp only [probability_score]
  split_ifs <;> omega

/-- C2: `classify` is the step function with boundaries exactly at 30, 50,
70 and 85; the bands are lower-closed, upper-open, with no overlap and no
gaps. -/
theorem classify_band_boundaries (s : ℤ) :
    (classify s = Regime.PANIC ↔ s < 30) ∧
    (classify s = Regime.TRANSITION ↔ 30 ≤ s ∧ s < 50) ∧
    (classify s = Regime.EARLY_PHASE_1 ↔ 50 ≤ s ∧ s < 70) ∧
    (classify s = Regime.CONFIRMED_PHASE_1 ↔ 70 ≤ s ∧ s < 85) ∧
    (classify s = Regime.LATE_PHASE_1 ↔ 85 ≤ s) := by
  unfold classify
  split_ifs <;> refine ⟨?_, ?_, ?_, ?_, ?_⟩ <;> simp <;> omega

/-- C3: the phase alert fires iff the new regime differs from the stored
previous regime and is one of TRANSITION, EARLY_PHASE_1, CONFIRMED_PHASE_1;
it never fires when the regime is unchanged, and never on a transition into
PANIC or LATE_PHASE_1. -/
theorem should_alert_iff (new old : Regime) :
    (should_alert new (some old) = true ↔
      new ≠ old ∧ (new = Regime.TRANSITION ∨ new = Regime.EARLY_PHASE_1 ∨
        new = Regime.CONFIRMED_PHASE_1)) ∧
    should_alert new (some new) = false ∧
    should_alert Regime.PANIC (some old) = false ∧
    should_alert Regime.LATE_PHASE_1 (some old) = false := by
  cases new <;> cases old <;> decide

/-- C4: every rolling buffer stays within its declared capacity: after
loading any persisted state, after the alert-branch appends from any
well-formed state, and after any sequence of appends; when an insertion
exceeds a full buffer's capacity the oldest entry is evicted first. -/
theorem buffer_capacity_invariant :
    (∀ stored : StoredHistory, (load_history stored).wf) ∧
    (∀ (h : History) (a b c d : ℤ) (r : Regime) (t : String),
        h.wf → (update_buffers h a b c d r t).wf) ∧
    (∀ (n : ℕ) (start : List ℤ) (xs : List ℤ),
        (xs.foldl (dappend n) (dequeFrom n start)).length ≤ n) ∧
    (∀ (n : ℕ) (l : List ℤ) (x : ℤ), 0 < n → l.length = n →
        dappend n l x = l.tail ++ [x]) :=
  ⟨load_history_wf,
   update_buffers_wf,
   fun n start xs => foldl_dappend_length_le n xs (dequeFrom n start) (dequeFrom_length_le n start),
   fun n l x hn hl => dappend_full_evicts_oldest n l x hn hl⟩

/-- Witness for C4: the invariant holds for a concrete update of the empty
history, and a concrete append to a full capacity-3 buffer evicts the
oldest element. -/
theorem buffer_capacity_invariant_witness :
    (update_buffers History.init 1 2 3 4 Regime.PANIC day0).wf ∧
    dappend 3 [(9 : ℤ), 8, 7] 6 = [8, 7, 6] := by
  refine ⟨buffer_capacity_invariant.2.1 History.init 1 2 3 4 Regime.PANIC day0 ?_, ?_⟩
  · simp [History.wf, History.init]
  · rw [buffer_capacity_invariant.2.2.2 3 [(9 : ℤ), 8, 7] 6 (by decide) (by decide)]
    decide

/-- Counterexample to C5: a concrete tick that reaches scoring (the changes
are computed and `fake_spike` is false) on which no phase alert fires; the
tick completes, yet all four smoothing buffers remain empty, so the
instantaneous strengths were NOT appended on this scored tick. -/
theorem smoothing_every_scored_tick_cex :
    compute_changes data5 st5_in.previous = Except.ok changes5 ∧
    fake_spike data5 changes5 = false ∧
    tick st5_in data5 day0 = Except.ok st5_out ∧
    st5_in.history.vix_strength = [] ∧
    st5_out.history.vix_strength = [] ∧
    st5_out.history.vvix_strength = [] ∧
    st5_out.history.spread_strength = [] ∧
    st5_out.history.spx_strength = [] := by
  refine ⟨?_, ?_, ?_, rfl, rfl, rfl, rfl, rfl⟩
  · norm_num [compute_changes, data5, st5_in, prev5, changes5]
  · norm_num [fake_spike, data5, changes5]
  · norm_num [tick, compute_changes, fake_spike, probability_score, classify, should_alert,
      important, data5, st5_in, prev5, st5_out, History.init]

/-- C5 amended: on a tick that reaches scoring, the smoothing buffers (and
the trend and weekly buffers) are appended to exactly when the phase alert
fires; on a scored tick without a phase alert every buffer is left
unchanged. -/
theorem smoothing_append_iff_alert (st : LoopState) (data : MarketSnapshot) (today : String)
    (changes : Changes) (st2 : LoopState)
    (hc : compute_changes data st.previous = Except.ok changes)
    (hns : fake_spike data changes = false)
    (ht : tick st data today = Except.ok st2) :
    (should_alert (classify (probability_score data changes))
        (Option.map PrevVals.regime st.previous) = true →
      st2.history =
        update_buffers st.history (strengths changes).1 (strengths changes).2.1
          (strengths changes).2.2.1 (strengths changes).2.2.2
          (classify (probability_score data changes)) today) ∧
    (should_alert (classify (probability_score data changes))
        (Option.map PrevVals.regime st.previous) = false →
      st2.history = st.history) := by
  unfold tick at ht
  rw [hc] at ht
  simp only [hns, Bool.false_eq_true, if_false] at ht
  simp only [Except.ok.injEq] at ht
  subst ht
  constructor <;> intro h <;> simp [h]

/-- Witness for the amended C5: a concrete alert-firing tick on which every
buffer receives the computed strengths. -/
theorem smoothing_append_iff_alert_witness :
    should_alert (classify (probability_score data5b changes5b))
        (Option.map PrevVals.regime st5b_in.previous) = true ∧
    st5b_out.history =
      update_buffers st5b_in.history (strengths changes5b).1 (strengths changes5b).2.1
        (strengths changes5b).2.2.1 (strengths changes5b).2.2.2
        (classify (probability_score data5b changes5b)) day0 := by
  have halert : should_alert (classify (probability_score data5b changes5b))
      (Option.map PrevVals.regime st5b_in.previous) = true := by
    norm_num [should_alert, classify, probability_score, important, data5b, changes5b, st5b_in,
      prev5b] <;> decide
  refine ⟨halert, ?_⟩
  exact (smoothing_append_iff_alert st5b_in data5b day0 changes5b st5b_out
    (by norm_num [compute_changes, data5b, st5b_in, prev5b, changes5b])
    (by norm_num [fake_spike, data5b, changes5b])
    (by norm_num [tick, compute_changes, fake_spike, probability_score, classify,
      should_alert, important, strengths, signal_strength, pytrunc, update_buffers,
      dappend, dequeFrom, History.init, data5b, st5b_in, prev5b, changes5b, st5b_out,
      hist5b, SMOOTHING_DAYS, TREND_LENGTH, WEEKLY_LENGTH] <;> decide)).1 halert

/-- Counterexample to C6: for a vix percent change of -3/4 the source
computes strength 53 (truncation by Python int()), while the claimed
round-to-nearest formula yields 54 on the same sign-adjusted value. -/
theorem strength_rounding_cex :
    (strengths changes6).1 = 53 ∧ signal_strength_round_spec (-(changes6.vix_change)) = 54 := by
  constructor <;>
    norm_num [strengths, signal_strength, pytrunc, changes6, signal_strength_round_spec,
      roundNearest]

/-- C6 amended: each per-metric instantaneous strength equals
clamp(trunc(sign_adjusted_value * 5 + 50), 0, 100) where trunc is truncation
toward zero (not rounding to nearest); the sign adjustment is the negated
change for vix and vvix, the negated spread for spread, and the raw change
for spx; and every strength lies in [0, 100]. -/
theorem strength_trunc_formula (changes : Changes) :
    strengths changes =
      (signal_strength_trunc_spec (-(changes.vix_change)),
       signal_strength_trunc_spec (-(changes.vvix_change)),
       signal_strength_trunc_spec (-(changes.spread)),
       signal_strength_trunc_spec changes.spx_change) ∧
    ∀ (v : ℚ) (b : Bool), 0 ≤ signal_strength v b ∧ signal_strength v b ≤ 100 := by
  constructor
  · rfl
  · intro v b
    cases b <;> simp only [signal_strength, if_true, if_false, Bool.false_eq_true] <;>
      constructor <;> omega

/-- C7: when the spike-filter condition holds on the computed changes, the
tick short-circuits and the whole loop state (previous values and every
rolling buffer) is returned exactly as it was. -/
theorem spike_short_circuit (st : LoopState) (data : MarketSnapshot) (today : String)
    (changes : Changes)
    (hc : compute_changes data st.previous = Except.ok changes)
    (hs : fake_spike data changes = true) :
    tick st data today = Except.ok st := by
  unfold tick
  rw [hc]
  simp [hs]

/-- Witness for C7: a concrete spiking tick leaves the state untouched. -/
theorem spike_short_circuit_witness : tick st7_in data7 day0 = Except.ok st7_in :=
  spike_short_circuit st7_in data7 day0 changes7
    (by norm_num [compute_changes, st7_in, prev7, data7, changes7])
    (by norm_num [fake_spike, data7, changes7])

/-- C8: on the first tick, with no previous snapshot, the three percent
changes are exactly 0, `spread_trending_down` is false, and the spread is
still computed as vx1 - vx2. -/
theorem compute_changes_first_tick (data : MarketSnapshot) :
    compute_changes data none =
      Except.ok
        { vix_change := 0, vvix_change := 0, spx_change := 0,
          spread := data.vx1 - data.vx2, spread_trending_down := false } := rfl

/-- Counterexample to C9: with a previous snapshot whose stored vix is
exactly zero, `compute_changes` does NOT produce an error: the truthiness
test treats zero like an absent previous and silently returns all-zero
changes. -/
theorem zero_prev_vix_silent_cex :
    compute_changes data9 (some prev9) =
      Except.ok
        { vix_change := 0, vvix_change := 0, spx_change := 0, spread := 1,
          spread_trending_down := false } := by
  norm_num [compute_changes, data9, prev9]

/-- C9 amended: a zero previous vix is treated like an absent previous
(all-zero changes, no error, because of the Python truthiness test), while
a zero previous vvix or spx with nonzero previous vix does raise the
division-by-zero error before any changes are produced. -/
theorem compute_changes_zero_prev (data : MarketSnapshot) (p : PrevVals) :
    (p.vix = 0 →
      compute_changes data (some p) =
        Except.ok
          { vix_change := 0, vvix_change := 0, spx_change := 0,
            spread := data.vx1 - data.vx2,
            spread_trending_down := decide (data.vx1 - data.vx2 < p.spread) }) ∧
    (p.vix ≠ 0 → p.vvix = 0 ∨ p.spx = 0 →
      compute_changes data (some p) = Except.error ComputeError.divByZero) := by
  constructor
  · intro h
    simp [compute_changes, h]
  · intro h h2
    simp [compute_changes, h, h2]

/-- Witness for the amended C9: a concrete zero previous vix yields zero
changes, and a concrete zero previous vvix yields the error. -/
theorem compute_changes_zero_prev_witness :
    compute_changes data9 (some prev9) =
      Except.ok
        { vix_change := 0, vvix_change := 0, spx_change := 0,
          spread := data9.vx1 - data9.vx2,
          spread_trending_down := decide (data9.vx1 - data9.vx2 < prev9.spread) } ∧
    compute_changes data9 (some prev9b) = Except.error ComputeError.divByZero :=
  ⟨(compute_changes_zero_prev data9 prev9).1 (by norm_num [prev9]),
   (compute_changes_zero_prev data9 prev9b).2 (by norm_num [prev9b]) (by norm_num [prev9b])⟩

/-- C10: for any snapshot obeying the source derivation vx3 = vx2 * 1.01
with vx2 positive, the fake-spike condition is false (vx2 > vx3 can never
hold), so the fake-spike branch is unreachable for source-produced
snapshots. -/
theorem fake_spike_unreachable (data : MarketSnapshot) (changes : Changes)
    (h3 : data.vx3 = data.vx2 * (101/100)) (h2 : 0 < data.vx2) :
    fake_spike data changes = false := by
  have hlt : ¬ (data.vx2 > data.vx3) := by
    rw [h3]
    nlinarith
  simp [fake_spike, hlt]

/-- Witness for C10: a concrete snapshot with vx3 = vx2 * 1.01 on which the
fake-spike condition evaluates to false. -/
theorem fake_spike_unreachable_witness : fake_spike data10 changes10 = false :=
  fake_spike_unreachable data10 changes10 (by norm_num [data10]) (by norm_num [data10])
